import Mathlib

/-!
Shallow embedding of `src/dbs/pgsql_reconnect_helper.py`: the classes
`BaseRenew`, `RenewCursor` and `RetryConnection`, built on psycopg2's
`connection` and `cursor` base classes.

Modelling conventions:

* Connections and cursors live in a heap `St` (two lists indexed by `Nat`).
* The external psycopg2 driver is the collaborator.  Driver-level `execute`
  outcomes are given by an oracle (`St.oracle`), consumed one entry per
  driver-level execute call.  Driver `close` is idempotent and does not throw
  (psycopg2 behaviour), and constructing a connection from stored arguments
  succeeds and yields an open connection.
* Construction arguments are opaque: positional arguments are one `Nat`,
  keyword arguments a `Kwargs` record.  The `cursor_factory` keyword is
  modelled explicitly because `RetryConnection.cursor` manipulates it
  (line 228, `kwargs.setdefault`); all other keywords are the field `rest`.
* The module's imports (lines 9-12) bind only `cursor`, `InterfaceError`,
  `_base_cursor` and `_base_connection`; `logging` is never imported, so every
  `logging.debug` / `logging.warning` statement raises `NameError` when it is
  reached.  The model raises `PyErr.nameError` at exactly those points.
* Method resolution: `RenewCursor(_base_cursor, BaseRenew)` has MRO
  `[RenewCursor, cursor, BaseRenew, object]`, and
  `RetryConnection(_base_connection, BaseRenew)` has MRO
  `[RetryConnection, connection, BaseRenew, object]`.  Both psycopg2 base
  classes define `close`, and they precede `BaseRenew`, so `x.close()`
  dispatches to the driver close.  `BaseRenew.close` (lines 133-141) is
  modelled separately (`baseRenewCloseConn` / `baseRenewCloseCur`) together
  with the lookup itself (`resolveClose`).
* `Res α` returns the resulting state on both success and raise, so the side
  effects performed before an exception stay observable.
-/

namespace PgsqlReconnect

/-- Python truthiness of a string literal: non-empty strings are truthy.
Used for the condition on line 176, which reads `if "cursor already closed":`
(a constant string, not a comparison with `msg`). -/
def pyTruthy (s : String) : Bool := !s.isEmpty

/-- A cursor factory value: `RenewCursor` (the default on line 225) or some
other class, kept opaque. -/
inductive Factory
  | renewCursor
  | other (n : Nat)
  deriving DecidableEq

/-- Keyword arguments.  `cursor_factory` is the one key the source touches by
name (line 228); every other keyword is abstracted into `rest`. -/
structure Kwargs where
  cursor_factory : Option Factory
  rest : Nat
  deriving DecidableEq

/-- Python exceptions that can surface in the modelled code. -/
inductive PyErr
  | nameError
  | attributeError
  | typeError
  | recursionError
  | interfaceError (msg : String)
  | otherError (msg : String)
  deriving DecidableEq

/-- Outcome of one driver-level `execute` call, supplied by the oracle.  The
driver raises either a psycopg2 `InterfaceError` or some other error. -/
inductive DriverOutcome
  | ok
  | interfaceError (msg : String)
  | otherError (msg : String)
  deriving DecidableEq

/-- A `RetryConnection` object: driver-level `closed` flag, the stored
construction spec `_args` / `_kwargs` (lines 30-31, 33-35), the psycopg2
`cursor_factory` attribute (set from the construction keywords), and the
`_sub_obj` successor reference (line 29). -/
structure ConnObj where
  closed : Bool
  args : Nat
  kwargs : Kwargs
  cursor_factory : Option Factory
  sub : Option Nat
  deriving DecidableEq

/-- A `RenewCursor` object: owning driver connection, driver-level `closed`
flag, stored construction spec, the factory that built it, and the successor
reference. -/
structure CurObj where
  conn : Nat
  closed : Bool
  args : Nat
  kwargs : Kwargs
  factory : Factory
  sub : Option Nat
  deriving DecidableEq

/-- Observable events, used to count constructions, closes and driver
executes. -/
inductive Event
  | newConn (c : Nat) (args : Nat) (kwargs : Kwargs)
  | newCur (k : Nat) (conn : Nat) (factory : Factory)
  | connClosed (c : Nat)
  | curClosed (k : Nat)
  | driverExec (k : Nat) (q : Nat)
  deriving DecidableEq

/-- The heap: all connection and cursor objects, the driver oracle, how many
driver-level executes have happened, and the event trace. -/
structure St where
  conns : List ConnObj
  curs : List CurObj
  oracle : Nat → DriverOutcome
  execCount : Nat
  events : List Event

/-- Result of a Python call: value or raised exception, each with the state
reached. -/
inductive Res (α : Type)
  | ok (a : α) (s : St)
  | err (e : PyErr) (s : St)

/-- `RenewCursor.__fix_attrs__` (line 150), duplicate entry kept as written. -/
def cursorFixAttrs : List String := ["closed", "connection", "fetchall", "fetchone", "fetchall"]

/-- `RetryConnection.__fix_attrs__` (line 208). -/
def connectionFixAttrs : List String := ["closed", "connection"]

/-- Values an attribute read can produce. -/
inductive AttrVal
  | boolV (b : Bool)
  | connV (c : Nat)
  | methodV (owner : Nat) (name : String)
  | errV (e : PyErr)
  deriving DecidableEq

/-- Plain (non-delegated) attribute read on a cursor object, i.e. what
`super(BaseRenew, self).__getattribute__(key)` returns on line 112 for the
attributes the claims mention.  `fetchone` / `fetchall` are bound methods of
the cursor that owns them.  Attributes outside the modelled set are not
needed by any claim. -/
def curBaseAttr (s : St) (k : Nat) (key : String) : AttrVal :=
  match s.curs.get? k with
  | none => .errV .attributeError
  | some cu =>
    if key = "closed" then .boolV cu.closed
    else if key = "connection" then .connV cu.conn
    else if key = "fetchone" then .methodV k key
    else if key = "fetchall" then .methodV k key
    else .errV .attributeError

/-- Plain attribute read on a connection object.  psycopg2 connections have a
`closed` attribute but no `connection` attribute, so any other key is an
`AttributeError`. -/
def connBaseAttr (s : St) (c : Nat) (key : String) : AttrVal :=
  match s.conns.get? c with
  | none => .errV .attributeError
  | some co =>
    if key = "closed" then .boolV co.closed
    else .errV .attributeError

/-- `BaseRenew.__getattribute__` (lines 98-112) for a `RenewCursor`: if the
key is in `__fix_attrs__` and a successor exists, read the attribute from the
successor (itself a `RenewCursor`, so the read recurses down the chain);
otherwise fall through to the plain read.  `fuel` bounds the chain length. -/
def curGetattr : Nat → St → Nat → String → AttrVal
  | 0, _, _, _ => .errV .recursionError
  | fuel+1, s, k, key =>
    if key ∈ cursorFixAttrs then
      match s.curs.get? k with
      | none => .errV .attributeError
      | some cu =>
        match cu.sub with
        | some k2 => curGetattr fuel s k2 key
        | none => curBaseAttr s k key
    else curBaseAttr s k key

/-- `BaseRenew.__getattribute__` (lines 98-112) for a `RetryConnection`. -/
def connGetattr : Nat → St → Nat → String → AttrVal
  | 0, _, _, _ => .errV .recursionError
  | fuel+1, s, c, key =>
    if key ∈ connectionFixAttrs then
      match s.conns.get? c with
      | none => .errV .attributeError
      | some co =>
        match co.sub with
        | some c2 => connGetattr fuel s c2 key
        | none => connBaseAttr s c key
    else connBaseAttr s c key

/-- Update the connection at index `c`, if present. -/
def setConnAt (l : List ConnObj) (c : Nat) (f : ConnObj → ConnObj) : List ConnObj :=
  match l.get? c with
  | some co => l.set c (f co)
  | none => l

/-- Update the cursor at index `k`, if present. -/
def setCurAt (l : List CurObj) (k : Nat) (f : CurObj → CurObj) : List CurObj :=
  match l.get? k with
  | some cu => l.set k (f cu)
  | none => l

/-- Driver-level `connection.close()`: idempotent, closes only this
connection object, never throws (psycopg2 behaviour). -/
def driverConnClose (s : St) (c : Nat) : St :=
  { s with conns := setConnAt s.conns c (fun co => { co with closed := true }),
           events := s.events ++ [.connClosed c] }

/-- Driver-level `cursor.close()`: idempotent, closes only this cursor
object, never throws. -/
def driverCurClose (s : St) (k : Nat) : St :=
  { s with curs := setCurAt s.curs k (fun cu => { cu with closed := true }),
           events := s.events ++ [.curClosed k] }

/-- Construct a fresh `RetryConnection` from a stored construction spec
(line 125 and line 129: `__class__(*args, **kwargs)`).  The driver connect
succeeds and the new connection is open; `RetryConnection.__init__`
(lines 210-212) stores `args` / `kwargs`, and psycopg2 sets the
`cursor_factory` attribute from the keyword of the same name. -/
def allocConn (s : St) (args : Nat) (kwargs : Kwargs) : Nat × St :=
  let c := s.conns.length
  (c, { s with
        conns := s.conns ++ [{ closed := false, args := args, kwargs := kwargs,
                               cursor_factory := kwargs.cursor_factory, sub := none }],
        events := s.events ++ [.newConn c args kwargs] })

/-- Driver-level `connection.cursor(*args, **kwargs)`
(`super(RetryConnection, self).cursor`, line 248): raises the psycopg2
closed-connection `InterfaceError` on a closed connection, otherwise builds a
cursor with the `cursor_factory` keyword; `RenewCursor.__init__`
(lines 152-154) stores the construction arguments on the new cursor. -/
def driverCursor (s : St) (c : Nat) (args : Nat) (kwargs : Kwargs) : Res Nat :=
  match s.conns.get? c with
  | none => .err .attributeError s
  | some co =>
    if co.closed then .err (.interfaceError ("connection already closed")) s
    else
      let factory := kwargs.cursor_factory.getD .renewCursor
      let k := s.curs.length
      .ok k { s with
              curs := s.curs ++ [{ conn := c, closed := false, args := args,
                                   kwargs := kwargs, factory := factory, sub := none }],
              events := s.events ++ [.newCur k c factory] }

/-- Driver-level `cursor.execute` (`super(RenewCursor, self).execute`,
line 203): consumes the next oracle entry. -/
def driverExec (s : St) (k : Nat) (q : Nat) : Res Unit :=
  let out := s.oracle s.execCount
  let s1 : St := { s with execCount := s.execCount + 1,
                          events := s.events ++ [.driverExec k q] }
  match out with
  | .ok => .ok () s1
  | .interfaceError m => .err (.interfaceError m) s1
  | .otherError m => .err (.otherError m) s1

/-- The connection branch of `solve_conn_curs` (lines 128-129), with
`self = cur_conn` as at every call site:
`self.sub = cur_conn.__class__(*self.args, **self.kwargs)`. -/
def connRenewSelf (s : St) (c : Nat) : St :=
  match s.conns.get? c with
  | none => s
  | some co =>
    let p := allocConn s co.args co.kwargs
    { p.2 with conns := setConnAt p.2.conns c (fun x => { x with sub := some p.1 }) }

/-- Lines 231-232: `cursor.args = args; cursor.kwargs = kwargs` — overwrite
the stored construction spec of the returned cursor. -/
def setCurSpec (s : St) (k : Nat) (args : Nat) (kwargs : Kwargs) : St :=
  { s with curs := setCurAt s.curs k (fun cu => { cu with args := args, kwargs := kwargs }) }

/-- `RetryConnection.cursor` (lines 214-233) together with
`RetryConnection.__cursor` (lines 235-248).
Line 225: `cursor_factory = self.cursor_factory or RenewCursor` (own
attribute — `cursor_factory` is not in `__fix_attrs__`).
Line 226: `if self.closed:` — a delegated read.
Line 227: `self.solve_conn_curs(self)` — `self` is a connection, so this is
the connection branch (lines 128-129), factored as `connRenewSelf`; it has no
logging call, so it succeeds.
Line 228: `kwargs.setdefault('cursor_factory', cursor_factory)`.
Lines 245-248 (`__cursor`): go through `self.sub.cursor` when a successor
exists (a recursive call of this method), else through the driver.
Lines 231-232: overwrite the returned cursor's stored spec. -/
def connCursor : Nat → St → Nat → Nat → Kwargs → Res Nat
  | 0, s, _, _, _ => .err .recursionError s
  | fuel+1, s, c, args, kwargs =>
    match s.conns.get? c with
    | none => .err .attributeError s
    | some co =>
      let ownFactory := co.cursor_factory.getD .renewCursor
      match connGetattr (fuel+1) s c ("closed") with
      | .boolV cl =>
        let s1 := if cl then connRenewSelf s c else s
        let kwargs1 : Kwargs :=
          { kwargs with cursor_factory := some (kwargs.cursor_factory.getD ownFactory) }
        match (match s1.conns.get? c with | some co1 => co1.sub | none => none) with
        | some c2 =>
          match connCursor fuel s1 c2 args kwargs1 with
          | .ok k s2 => .ok k (setCurSpec s2 k args kwargs1)
          | .err e s2 => .err e s2
        | none =>
          match driverCursor s1 c args kwargs1 with
          | .ok k s2 => .ok k (setCurSpec s2 k args kwargs1)
          | .err e s2 => .err e s2
      | .errV e => .err e s
      | _ => .err .typeError s

/-- The kind of object handed to `solve_conn_curs`, matching the
`issubclass` dispatch on lines 121 and 128. -/
inductive Handle
  | curH (k : Nat)
  | connH (c : Nat)
  | otherH
  deriving DecidableEq

/-- `BaseRenew.solve_conn_curs` (lines 114-131), with `self = cur_conn` as at
every call site.
Cursor branch (lines 121-127): read `cur_conn.connection` (delegated); if
that connection's (delegated) `closed` is true, build a new connection from
the connection's own stored spec (line 125); then call `conn.cursor` with the
cursor's own stored spec (line 126) and attach the result as successor
(line 127).
Connection branch (lines 128-129): `connRenewSelf`.
Any other object (line 131): `logging.warning` — `logging` is not imported,
so this raises `NameError`. -/
def solveConnCurs (fuel : Nat) (s : St) (h : Handle) : Res Unit :=
  match h with
  | .curH k =>
    match curGetattr fuel s k ("connection") with
    | .connV c =>
      match s.conns.get? c, connGetattr fuel s c ("closed") with
      | some co, .boolV b =>
        let p : Nat × St := if b then allocConn s co.args co.kwargs else (c, s)
        match s.curs.get? k with
        | some cu =>
          match connCursor fuel p.2 p.1 cu.args cu.kwargs with
          | .ok k2 s2 =>
            .ok () { s2 with curs := setCurAt s2.curs k (fun x => { x with sub := some k2 }) }
          | .err e s2 => .err e s2
        | none => .err .attributeError s
      | _, _ => .err .attributeError s
    | .errV e => .err e s
    | _ => .err .typeError s
  | .connH c => .ok () (connRenewSelf s c)
  | .otherH => .err .nameError s

/-- `RenewCursor.execute` (lines 156-188).
Line 166: `if self.connection.closed:` — both reads delegated.
Line 167: `logging.debug` — `logging` is not imported, so the branch raises
`NameError` (the renewal on line 168 is never reached).
Lines 169-171: same for the `self.closed` pre-check.
Lines 172-173: `try: self.__execute(*args, **kwargs)` — `__execute`
(lines 190-203) delegates to `self.sub.execute` (the full method, recursing)
when a successor exists, else to the driver execute.
Line 174: only `InterfaceError` is caught; anything else propagates.
Line 176: `if "cursor already closed":` — a constant non-empty string, hence
always truthy; the `elif "connection already closed" == msg` branch
(lines 181-185) is unreachable, but is modelled as written.
Line 178: `self.close()` — by the MRO this is the driver cursor close.
Line 179 (and 184): `logging.debug` → `NameError`, so the renewal on
line 180 (resp. 185) and the retry on line 188 are never reached. -/
def curExecute : Nat → St → Nat → Nat → Res Unit
  | 0, s, _, _ => .err .recursionError s
  | fuel+1, s, k, q =>
    match curGetattr (fuel+1) s k ("connection") with
    | .connV c =>
      match connGetattr (fuel+1) s c ("closed") with
      | .boolV b1 =>
        if b1 then .err .nameError s
        else
          match curGetattr (fuel+1) s k ("closed") with
          | .boolV b2 =>
            if b2 then .err .nameError s
            else
              let att : Res Unit :=
                match (match s.curs.get? k with | some cu => cu.sub | none => none) with
                | some k2 => curExecute fuel s k2 q
                | none => driverExec s k q
              match att with
              | .ok a s1 => .ok a s1
              | .err e s1 =>
                match e with
                | .interfaceError m =>
                  if pyTruthy ("cursor already closed") then
                    .err .nameError (driverCurClose s1 k)
                  else if m = "connection already closed" then
                    match curGetattr (fuel+1) s1 k ("connection") with
                    | .connV c2 => .err .nameError (driverConnClose s1 c2)
                    | .errV e2 => .err e2 s1
                    | _ => .err .typeError s1
                  else .err (.interfaceError m) s1
                | _ => .err e s1
          | .errV e => .err e s
          | _ => .err .typeError s
      | .errV e => .err e s
      | _ => .err .typeError s
    | .errV e => .err e s
    | _ => .err .typeError s

/-- The classes involved, for modelling Python method resolution. -/
inductive Cls
  | renewCursorC
  | psycopgCursorC
  | retryConnectionC
  | psycopgConnectionC
  | baseRenewC
  | objectC
  deriving DecidableEq

/-- MRO of `class RenewCursor(_base_cursor, BaseRenew)` (line 143), by C3
linearization. -/
def mroRenewCursor : List Cls := [.renewCursorC, .psycopgCursorC, .baseRenewC, .objectC]

/-- MRO of `class RetryConnection(_base_connection, BaseRenew)` (line 206). -/
def mroRetryConnection : List Cls := [.retryConnectionC, .psycopgConnectionC, .baseRenewC, .objectC]

/-- Which classes define a `close` method: both psycopg2 base classes do,
`BaseRenew` does (line 133), `object` and the two subclasses do not. -/
def definesClose : Cls → Bool
  | .psycopgCursorC => true
  | .psycopgConnectionC => true
  | .baseRenewC => true
  | _ => false

/-- Attribute lookup of `close` along an MRO: the first class that defines
it. -/
def resolveClose (mro : List Cls) : Option Cls := mro.find? definesClose

/-- The classes strictly after `x` in an MRO — what `super(x, self)` searches. -/
def afterClass (x : Cls) (mro : List Cls) : List Cls :=
  (mro.dropWhile (fun c => !(decide (c = x)))).tail

/-- What `x.close()` on a `RetryConnection` actually does: by `resolveClose`
on `mroRetryConnection`, it dispatches to the driver connection close. -/
def connClose (s : St) (c : Nat) : Res Unit := .ok () (driverConnClose s c)

/-- What `x.close()` on a `RenewCursor` actually does: by `resolveClose` on
`mroRenewCursor`, it dispatches to the driver cursor close. -/
def curClose (s : St) (k : Nat) : Res Unit := .ok () (driverCurClose s k)

/-- `BaseRenew.close` (lines 133-141) invoked on a `RetryConnection`:
`if recursive and self.sub: self.sub.close()` — the successor is itself a
`RetryConnection`, so its `close` dispatches to the driver close — and then
`super(BaseRenew, self).close()`: no class after `BaseRenew` in the MRO
defines `close`, so this raises `AttributeError`. -/
def baseRenewCloseConn (s : St) (c : Nat) (recursive : Bool) : Res Unit :=
  let s1 :=
    if recursive then
      match (s.conns.get? c).bind (fun co => co.sub) with
      | some c2 => driverConnClose s c2
      | none => s
    else s
  .err .attributeError s1

/-- `BaseRenew.close` (lines 133-141) invoked on a `RenewCursor`. -/
def baseRenewCloseCur (s : St) (k : Nat) (recursive : Bool) : Res Unit :=
  let s1 :=
    if recursive then
      match (s.curs.get? k).bind (fun cu => cu.sub) with
      | some k2 => driverCurClose s k2
      | none => s
    else s
  .err .attributeError s1

/-- The names bound at module top level by `src/dbs/pgsql_reconnect_helper.py`:
the four imports on lines 9-12 and the three class statements.  `logging` is
not among them. -/
def moduleTopLevelNames : List String :=
  ["cursor", "InterfaceError", "_base_cursor", "_base_connection",
   "BaseRenew", "RenewCursor", "RetryConnection"]

/-- Empty keyword arguments. -/
def kw0 : Kwargs := { cursor_factory := none, rest := 0 }

/-- A connection with no successor and empty keywords. -/
def mkConn (cl : Bool) (a : Nat) : ConnObj :=
  { closed := cl, args := a, kwargs := kw0, cursor_factory := none, sub := none }

/-- A cursor with no successor and empty keywords. -/
def mkCur (c : Nat) (cl : Bool) (a : Nat) : CurObj :=
  { conn := c, closed := cl, args := a, kwargs := kw0, factory := .renewCursor, sub := none }

/-- Initial state builder. -/
def mkSt (cs : List ConnObj) (ks : List CurObj) (o : Nat → DriverOutcome) : St :=
  { conns := cs, curs := ks, oracle := o, execCount := 0, events := [] }

/-- Scenario: open connection and open cursor; the driver execute raises an
`InterfaceError` whose message is neither of the two closed-class messages. -/
def stC1 : St := mkSt [mkConn false 1] [mkCur 0 false 2] (fun _ => .interfaceError ("syntax error"))

/-- Scenario: open connection and open cursor; the driver execute raises an
error that is not an `InterfaceError`. -/
def stC1b (m : String) : St := mkSt [mkConn false 3] [mkCur 0 false 4] (fun _ => .otherError m)

/-- Scenario: the cursor's owning connection reports closed; every driver
execute would succeed. -/
def stC2 : St := mkSt [mkConn true 11] [mkCur 0 false 12] (fun _ => .ok)

/-- Scenario: open handles; the driver execute raises the ClosedConnection
condition `InterfaceError("connection already closed")`. -/
def stC3 : St := mkSt [mkConn false 21] [mkCur 0 false 22] (fun _ => .interfaceError ("connection already closed"))

/-- Scenario: open handles; the driver execute raises the ClosedCursor
condition `InterfaceError("cursor already closed")`. -/
def stC4 : St := mkSt [mkConn false 31] [mkCur 0 false 32] (fun _ => .interfaceError ("cursor already closed"))

/-- An oracle whose first entry is the ClosedCursor condition and whose later
entries are arbitrary. -/
def c4Oracle (o : Nat → DriverOutcome) : Nat → DriverOutcome :=
  fun n => match n with | 0 => .interfaceError ("cursor already closed") | n+1 => o n

/-- Scenario: a logical cursor (id 0) whose successor is cursor 1; used to
watch delegated reads land on the successor. -/
def stC5w : St :=
  mkSt [mkConn false 41]
       [{ conn := 0, closed := true, args := 42, kwargs := kw0, factory := .renewCursor, sub := some 1 },
        { conn := 0, closed := false, args := 43, kwargs := kw0, factory := .renewCursor, sub := none }]
       (fun _ => .ok)

/-- Scenario: connection 0 (open) has successor connection 1 (open). -/
def stC6 : St :=
  mkSt [{ closed := false, args := 51, kwargs := kw0, cursor_factory := none, sub := some 1 },
        mkConn false 52] [] (fun _ => .ok)

/-- State after `stC6`'s connection 0 is closed once: only connection 0 is
closed; its successor is untouched. -/
def stC6a : St :=
  { stC6 with
    conns := [{ closed := true, args := 51, kwargs := kw0, cursor_factory := none, sub := some 1 },
              mkConn false 52],
    events := [.connClosed 0] }

/-- State after `stC6a`'s connection 0 is closed a second time. -/
def stC6b : St := { stC6a with events := [.connClosed 0, .connClosed 0] }

/-- Scenario: the connection-closed pre-check of `execute` fires. -/
def stC8 : St := mkSt [mkConn true 61] [mkCur 0 false 62] (fun _ => .ok)

/-- Scenario for close dispatch: connection 0 has successor connection 1;
cursor 0 has successor cursor 1. -/
def stC9 : St :=
  mkSt [{ closed := false, args := 71, kwargs := kw0, cursor_factory := none, sub := some 1 },
        mkConn false 72]
       [{ conn := 0, closed := false, args := 73, kwargs := kw0, factory := .renewCursor, sub := some 1 },
        mkCur 0 false 74]
       (fun _ => .ok)

/-- Scenario: connection-closed pre-check path (line 167). -/
def stC10a : St := mkSt [mkConn true 81] [mkCur 0 false 82] (fun _ => .ok)

/-- Scenario: cursor-closed pre-check path (line 170). -/
def stC10b : St := mkSt [mkConn false 83] [mkCur 0 true 84] (fun _ => .ok)

/-- Scenario: `InterfaceError` handler path (line 179). -/
def stC10c : St := mkSt [mkConn false 85] [mkCur 0 false 86] (fun _ => .interfaceError ("unexpected driver fault"))

/-- Scenario: `solve_conn_curs` on an object that is neither a connection nor
a cursor (line 131). -/
def stC10d : St := mkSt [] [] (fun _ => .ok)

/-- Claim C1: the claim says an error that is not one of the two closed-class
conditions is re-raised with its original identity and message intact, no
renewal is performed and the execute is not retried.  The code violates this
for an `InterfaceError` with an unrecognized message: because line 176 reads
`if "cursor already closed":` — a constant truthy string instead of a
comparison with `msg` — the cursor-closed branch runs, the cursor is closed,
and a `NameError` replaces the original error at the `logging.debug` call
(the original error is lost, as this evaluation shows).  For errors that are
not `InterfaceError` at all, the claim's behaviour does hold (second
conjunct): the error propagates unchanged and there is exactly one driver
execute. -/
theorem c1_unrecognized_interface_error_is_mangled :
    curExecute 9 stC1 0 5 =
      .err .nameError
        { stC1 with
          execCount := 1,
          curs := [{ mkCur 0 false 2 with closed := true }],
          events := [.driverExec 0 5, .curClosed 0] } ∧
    (∀ m q,
      curExecute 9 (stC1b m) 0 q =
        .err (.otherError m)
          { stC1b m with
            execCount := 1,
            events := [.driverExec 0 q] }) :=
  ⟨rfl, fun _ _ => rfl⟩

/-- Claim C2: the claim says executing on a cursor whose owning connection
reports closed transparently rebuilds one connection and one cursor and the
query succeeds.  On the code as written, the pre-check on line 166 is true
and line 167 calls `logging.debug` — but the module never imports `logging`,
so execute raises `NameError` with the state completely unchanged: no new
connection, no new cursor, no driver execute. -/
theorem c2_closed_connection_raises_namerror (q : Nat) :
    curExecute 9 stC2 0 q = .err .nameError stC2 := rfl

/-- Claim C3: the claim says the ClosedConnection condition leads to closing
the owning connection once, then renewal, then one retry.  In the code the
branch that would do this (`elif "connection already closed" == msg`,
lines 181-185) is unreachable: the preceding `if "cursor already closed":`
(line 176) is a constant truthy string, so even for the message
"connection already closed" the cursor-closed branch runs — the CURSOR is
closed (no `connClosed` event appears), and then `logging.debug` on line 179
raises `NameError`; no renewal and no retry happen. -/
theorem c3_connection_closed_branch_is_dead :
    curExecute 9 stC3 0 8 =
      .err .nameError
        { stC3 with
          execCount := 1,
          curs := [{ mkCur 0 false 22 with closed := true }],
          events := [.driverExec 0 8, .curClosed 0] } ∧
    pyTruthy ("cursor already closed") = true :=
  ⟨rfl, rfl⟩

/-- Claim C4 counterexample: the claim says the ClosedCursor condition leads
to `close(recursive=False)`, then renewal, then exactly one retried execute.
Evaluating the code on a driver execute that raises
`InterfaceError("cursor already closed")`: the cursor close that happens is
the inherited driver close (line 178 is plain `self.close()`, and by the MRO
this is psycopg2's cursor close — `BaseRenew.close` and its `recursive`
parameter are never involved), and then `logging.debug` on line 179 raises
`NameError`: there is no renewal (no `newConn` / `newCur` event), and exactly
one driver execute (no retry), contradicting the claim. -/
theorem c4_counterexample :
    curExecute 9 stC4 0 9 =
      .err .nameError
        { stC4 with
          execCount := 1,
          curs := [{ mkCur 0 false 32 with closed := true }],
          events := [.driverExec 0 9, .curClosed 0] } := rfl

/-- Claim C4 amended: for every call of `RenewCursor.execute` that passes the
two pre-checks and whose driver execute raises the ClosedCursor condition,
the cursor's inherited driver close is invoked exactly once, and then execute
raises `NameError` at the `logging.debug` call on line 179 (`logging` is
never imported); no renewal is performed and the execute is not retried,
whatever the rest of the oracle would answer. -/
theorem c4_amended (a b q : Nat) (o : Nat → DriverOutcome) :
    curExecute 9 (mkSt [mkConn false a] [mkCur 0 false b] (c4Oracle o)) 0 q =
      .err .nameError
        { mkSt [mkConn false a] [mkCur 0 false b] (c4Oracle o) with
          execCount := 1,
          curs := [{ mkCur 0 false b with closed := true }],
          events := [.driverExec 0 q, .curClosed 0] } := rfl

/-- Claim C5: for every handle and every attribute in its fixed delegation
set (`closed`, `connection`, `fetchone`, `fetchall` for a cursor; `closed`,
`connection` for a connection), the read goes to the successor whenever one
exists and to the handle's own attribute otherwise; in particular, on a
cursor whose successor chain ends at a successor cursor, all four reads
return the successor's values, not the stale original's. -/
theorem c5_fix_attr_delegation :
    (∀ fuel (s : St) k cu key, key ∈ ["closed", "connection", "fetchone", "fetchall"] →
        s.curs.get? k = some cu →
        curGetattr (fuel+1) s k key =
          (match cu.sub with
           | some k2 => curGetattr fuel s k2 key
           | none => curBaseAttr s k key)) ∧
    (∀ fuel (s : St) c co key, key ∈ ["closed", "connection"] →
        s.conns.get? c = some co →
        connGetattr (fuel+1) s c key =
          (match co.sub with
           | some c2 => connGetattr fuel s c2 key
           | none => connBaseAttr s c key)) ∧
    (∀ (s : St) k k2 cu cu2,
        s.curs.get? k = some cu → cu.sub = some k2 →
        s.curs.get? k2 = some cu2 → cu2.sub = none →
        curGetattr 2 s k ("closed") = .boolV cu2.closed ∧
        curGetattr 2 s k ("connection") = .connV cu2.conn ∧
        curGetattr 2 s k ("fetchone") = .methodV k2 ("fetchone") ∧
        curGetattr 2 s k ("fetchall") = .methodV k2 ("fetchall")) := by
  refine ⟨?_, ?_, ?_⟩
  · intro fuel s k cu key hkey hget
    simp only [List.get?_eq_getElem?] at hget
    simp only [List.mem_cons, List.not_mem_nil, or_false] at hkey
    rcases hkey with h | h | h | h <;> subst h <;>
      simp [curGetattr, cursorFixAttrs, hget]
  · intro fuel s c co key hkey hget
    simp only [List.get?_eq_getElem?] at hget
    simp only [List.mem_cons, List.not_mem_nil, or_false] at hkey
    rcases hkey with h | h <;> subst h <;>
      simp [connGetattr, connectionFixAttrs, hget]
  · intro s k k2 cu cu2 hget hsub hget2 hsub2
    simp only [List.get?_eq_getElem?] at hget hget2
    refine ⟨?_, ?_, ?_, ?_⟩ <;>
      simp [curGetattr, curBaseAttr, cursorFixAttrs, hget, hsub, hget2, hsub2]

/-- Witness for C5: all three parts applied at the concrete state `stC5w`
(cursor 0 has successor cursor 1; connection 0 has no successor), with every
hypothesis discharged concretely. -/
theorem c5_fix_attr_delegation_witness :
    curGetattr 2 stC5w 0 ("closed") =
      (match (some 1 : Option Nat) with
       | some k2 => curGetattr 1 stC5w k2 ("closed")
       | none => curBaseAttr stC5w 0 ("closed")) ∧
    connGetattr 2 stC5w 0 ("closed") =
      (match (none : Option Nat) with
       | some c2 => connGetattr 1 stC5w c2 ("closed")
       | none => connBaseAttr stC5w 0 ("closed")) ∧
    curGetattr 2 stC5w 0 ("closed") = .boolV false ∧
    curGetattr 2 stC5w 0 ("connection") = .connV 0 :=
  ⟨c5_fix_attr_delegation.1 1 stC5w 0
      { conn := 0, closed := true, args := 42, kwargs := kw0, factory := .renewCursor, sub := some 1 }
      ("closed") (by decide) rfl,
   c5_fix_attr_delegation.2.1 1 stC5w 0 (mkConn false 41) ("closed") (by decide) rfl,
   (c5_fix_attr_delegation.2.2 stC5w 0 1
      { conn := 0, closed := true, args := 42, kwargs := kw0, factory := .renewCursor, sub := some 1 }
      { conn := 0, closed := false, args := 43, kwargs := kw0, factory := .renewCursor, sub := none }
      rfl rfl rfl rfl).1,
   (c5_fix_attr_delegation.2.2 stC5w 0 1
      { conn := 0, closed := true, args := 42, kwargs := kw0, factory := .renewCursor, sub := some 1 }
      { conn := 0, closed := false, args := 43, kwargs := kw0, factory := .renewCursor, sub := none }
      rfl rfl rfl rfl).2.1⟩

/-- Claim C6 counterexample: the claim says `close()` on a connection with a
successor closes the successor first and then itself.  On the concrete state
`stC6` (connection 0 open, successor connection 1 open), `close()` — which by
the MRO dispatches to the psycopg2 connection close, not `BaseRenew.close` —
closes only connection 0: the successor's `closed` flag stays `false` and
the only close event is on the handle itself. -/
theorem c6_counterexample :
    connClose stC6 0 = .ok () stC6a ∧
    (stC6a.conns.get? 1).map ConnObj.closed = some false ∧
    stC6a.events = [.connClosed 0] :=
  ⟨rfl, rfl, rfl⟩

/-- Claim C6 amended: `close()` on a `RetryConnection` dispatches, by the
MRO, to the driver connection's close: it closes the handle itself only and
leaves the successor open; calling `close()` a second time on the
already-closed handle does not throw (the driver close is idempotent).  The
successor-first recursive close lives in `BaseRenew.close`, which is
shadowed by the psycopg2 connection class in the MRO. -/
theorem c6_amended :
    resolveClose mroRetryConnection = some .psycopgConnectionC ∧
    connClose stC6 0 = .ok () stC6a ∧
    connClose stC6a 0 = .ok () stC6b ∧
    (stC6b.conns.get? 1).map ConnObj.closed = some false :=
  ⟨rfl, rfl, rfl, rfl⟩

/-- Claim C7: `RetryConnection.cursor` resolves the effective factory as the
caller-specified `cursor_factory` keyword if given, else the connection's own
`cursor_factory`, else `RenewCursor`; when the (delegated) `closed` read is
true it renews itself first (one new connection from its own stored spec,
attached as successor); it creates the cursor through the successor when one
exists and through the driver otherwise, passing the resolved factory as the
`cursor_factory` keyword; and the returned cursor's stored construction
arguments are overwritten with the cursor-call arguments.  Three scenarios:
open connection with no successor (driver creation); closed connection with
no successor (renew, then creation through the fresh successor); connection
with a pre-existing open successor (no renewal, creation through it). -/
theorem c7_cursor_factory_resolution (cf kf : Option Factory) (a b w r : Nat) :
    connCursor 9 (mkSt [{ closed := false, args := a, kwargs := kw0, cursor_factory := cf, sub := none }] [] (fun _ => .ok)) 0 w { cursor_factory := kf, rest := r } =
      .ok 0
        { mkSt [{ closed := false, args := a, kwargs := kw0, cursor_factory := cf, sub := none }] [] (fun _ => .ok) with
          curs := [{ conn := 0, closed := false, args := w,
                     kwargs := { cursor_factory := some (kf.getD (cf.getD .renewCursor)), rest := r },
                     factory := kf.getD (cf.getD .renewCursor), sub := none }],
          events := [.newCur 0 0 (kf.getD (cf.getD .renewCursor))] } ∧
    connCursor 9 (mkSt [{ closed := true, args := a, kwargs := kw0, cursor_factory := cf, sub := none }] [] (fun _ => .ok)) 0 w { cursor_factory := kf, rest := r } =
      .ok 0
        { mkSt [{ closed := true, args := a, kwargs := kw0, cursor_factory := cf, sub := none }] [] (fun _ => .ok) with
          conns := [{ closed := true, args := a, kwargs := kw0, cursor_factory := cf, sub := some 1 },
                    { closed := false, args := a, kwargs := kw0, cursor_factory := none, sub := none }],
          curs := [{ conn := 1, closed := false, args := w,
                     kwargs := { cursor_factory := some (kf.getD (cf.getD .renewCursor)), rest := r },
                     factory := kf.getD (cf.getD .renewCursor), sub := none }],
          events := [.newConn 1 a kw0, .newCur 0 1 (kf.getD (cf.getD .renewCursor))] } ∧
    connCursor 9 (mkSt [{ closed := true, args := a, kwargs := kw0, cursor_factory := cf, sub := some 1 }, mkConn false b] [] (fun _ => .ok)) 0 w { cursor_factory := kf, rest := r } =
      .ok 0
        { mkSt [{ closed := true, args := a, kwargs := kw0, cursor_factory := cf, sub := some 1 }, mkConn false b] [] (fun _ => .ok) with
          curs := [{ conn := 1, closed := false, args := w,
                     kwargs := { cursor_factory := some (kf.getD (cf.getD .renewCursor)), rest := r },
                     factory := kf.getD (cf.getD .renewCursor), sub := none }],
          events := [.newCur 0 1 (kf.getD (cf.getD .renewCursor))] } := by
  refine ⟨?_, ?_, ?_⟩ <;> cases kf <;> cases cf <;> rfl

/-- Claim C8 counterexample: the claim says that when the owning connection
reports closed, `solve_conn_curs(self)` runs.  On `stC8` (connection closed)
the call raises `NameError` at line 167's `logging.debug` with the state
completely unchanged: `solve_conn_curs` never runs (no successor is attached
and no construction event appears). -/
theorem c8_counterexample :
    curExecute 9 stC8 0 3 = .err .nameError stC8 := rfl

/-- Claim C8 amended: the two pre-checks of `RenewCursor.execute` are
evaluated independently, but whenever either delegated `closed` read is
true, execute raises `NameError` at the corresponding `logging.debug` call
(lines 167 and 170; `logging` is never imported) before `solve_conn_curs`
can run; neither pre-check ever performs a renewal, so the second check
never re-triggers one. -/
theorem c8_amended (a b q : Nat) (o : Nat → DriverOutcome) :
    curExecute 9 (mkSt [mkConn true a] [mkCur 0 false b] o) 0 q =
      .err .nameError (mkSt [mkConn true a] [mkCur 0 false b] o) ∧
    curExecute 9 (mkSt [mkConn false a] [mkCur 0 true b] o) 0 q =
      .err .nameError (mkSt [mkConn false a] [mkCur 0 true b] o) :=
  ⟨rfl, rfl⟩

/-- Claim C9 counterexample: the claim concludes that every call to `close()`
raises `AttributeError`.  On the concrete state `stC9`, ordinary `close()`
calls on the connection handle and on the cursor handle both return normally:
attribute lookup never reaches `BaseRenew.close`, because the psycopg2 base
class precedes `BaseRenew` in the MRO and defines `close`. -/
theorem c9_counterexample :
    connClose stC9 0 =
      .ok ()
        { stC9 with
          conns := [{ closed := true, args := 71, kwargs := kw0, cursor_factory := none, sub := some 1 },
                    mkConn false 72],
          events := [.connClosed 0] } ∧
    curClose stC9 0 =
      .ok ()
        { stC9 with
          curs := [{ conn := 0, closed := true, args := 73, kwargs := kw0, factory := .renewCursor, sub := some 1 },
                   mkCur 0 false 74],
          events := [.curClosed 0] } :=
  ⟨rfl, rfl⟩

/-- Claim C9 amended: `BaseRenew.close` does invoke
`super(BaseRenew, self).close()`, and no class after `BaseRenew` in either
MRO defines `close`, so a direct invocation of `BaseRenew.close` raises
`AttributeError` — after first closing the successor when `recursive` is true
and a successor exists, and without closing anything when there is no
successor.  But ordinary `close()` calls never reach it: lookup resolves
`close` to the psycopg2 base cursor/connection class, which precedes
`BaseRenew` in the MRO. -/
theorem c9_amended :
    resolveClose (afterClass .baseRenewC mroRenewCursor) = none ∧
    resolveClose (afterClass .baseRenewC mroRetryConnection) = none ∧
    resolveClose mroRenewCursor = some .psycopgCursorC ∧
    resolveClose mroRetryConnection = some .psycopgConnectionC ∧
    baseRenewCloseConn stC9 0 true =
      .err .attributeError
        { stC9 with
          conns := [{ closed := false, args := 71, kwargs := kw0, cursor_factory := none, sub := some 1 },
                    { mkConn false 72 with closed := true }],
          events := [.connClosed 1] } ∧
    baseRenewCloseCur stC9 0 true =
      .err .attributeError
        { stC9 with
          curs := [{ conn := 0, closed := false, args := 73, kwargs := kw0, factory := .renewCursor, sub := some 1 },
                   { mkCur 0 false 74 with closed := true }],
          events := [.curClosed 1] } ∧
    baseRenewCloseConn stC9 1 true = .err .attributeError stC9 :=
  ⟨rfl, rfl, rfl, rfl, rfl, rfl, rfl⟩

/-- Claim C10: the module never imports `logging` (its top-level names are
only the four imports of lines 9-12 and the three classes), so every
execution path that reaches a `logging.debug` or `logging.warning` call
raises `NameError` at that call: the connection-closed pre-check (line 167),
the cursor-closed pre-check (line 170), the reachable `InterfaceError`
branch (line 179 — the `elif` branch's call on line 184 is unreachable, see
C3), and the neither-connection-nor-cursor branch of `solve_conn_curs`
(line 131).  In particular, execute on a cursor whose connection reports
closed raises `NameError` with the state unchanged — before any renewal. -/
theorem c10_no_logging_import :
    ("logging" ∉ moduleTopLevelNames) ∧
    curExecute 9 stC10a 0 1 = .err .nameError stC10a ∧
    curExecute 9 stC10b 0 1 = .err .nameError stC10b ∧
    curExecute 9 stC10c 0 1 =
      .err .nameError
        { stC10c with
          execCount := 1,
          curs := [{ mkCur 0 false 86 with closed := true }],
          events := [.driverExec 0 1, .curClosed 0] } ∧
    solveConnCurs 9 stC10d .otherH = .err .nameError stC10d :=
  ⟨by decide, rfl, rfl, rfl, rfl⟩

end PgsqlReconnect
